import Mathlib

/-!
Verification of the youtube-whisper-worker service (src/main.py).

The service exposes `POST /transcribe` and `GET /health`. The transcribe
handler reads the `OPENAI_API_KEY` environment variable per request, trims
the request URL, creates a temporary scratch directory, runs `yt-dlp` with
a timeout, resolves the produced audio file (largest file whose name starts
with `audio.`), guards against files below 1024 bytes, submits the audio to
the remote Whisper API, and returns the trimmed transcript unless it is
shorter than 10 characters.

The embedding below mirrors `src/main.py` line by line. External effects
(the spawned process, the scratch-directory listing, the remote Whisper
call) are passed in as explicit oracle values in a `World` structure, and a
`Trace` records which effects the handler performed, so that cleanup and
never-invoked properties are statable.
-/

namespace YW

/-- Outcome of an HTTPException raise in the handler: a status code and a
human-readable detail string (FastAPI `HTTPException`). -/
structure HTTPException where
  status : Nat
  detail : String
deriving DecidableEq, Repr

/-- Request body model from `src/main.py` (`class Req(BaseModel)`): the one
declared field is `videoUrl`. -/
structure Req where
  videoUrl : String
deriving DecidableEq, Repr

/-- Success response body of the transcribe endpoint: `{"transcript": text}`. -/
structure Resp where
  transcript : String
deriving DecidableEq, Repr

/-- Static response of `GET /health`: `{"ok": True}`, computed without
reading any environment configuration. -/
structure HealthResp where
  ok : Bool
deriving DecidableEq, Repr

/-- Result of `GET /health` in `src/main.py`: always `{"ok": True}`. It takes
no input at all, so it cannot depend on the credential. -/
def health : HealthResp :=
  { ok := true }

/-- Outcome of the `subprocess.run` call on `yt-dlp`: either the 240 s
wall-clock timeout fired (`subprocess.TimeoutExpired`), or the process
completed with an exit code and captured output streams. -/
inductive ProcResult where
  | timeout : ProcResult
  | completed (returncode : Int) (stdout stderr : String) : ProcResult
deriving DecidableEq, Repr

/-- One entry of the scratch directory after `yt-dlp` ran: its file name
(relative to the scratch directory), whether it is a regular file
(`os.path.isfile`), and its byte size (`os.path.getsize`). -/
structure FileEntry where
  name : String
  isRegularFile : Bool
  size : Nat
deriving DecidableEq, Repr

/-- Outcome of the remote Whisper call `client.audio.transcriptions.create`:
either it raised (any `Exception`, stringified), or it returned a response
whose `text` attribute is `getattr(resp, "text", None)` — absent/None is
`none`. -/
inductive WhisperResult where
  | raised (msg : String) : WhisperResult
  | ok (text : Option String) : WhisperResult
deriving DecidableEq, Repr

/-- The external world one transcribe request observes: the `yt-dlp` process
outcome, the scratch-directory contents after it ran, and the remote
Whisper outcome. -/
structure World where
  proc : ProcResult
  files : List FileEntry
  whisper : WhisperResult
deriving DecidableEq, Repr

/-- Effects the handler performed, recorded for the resource and sequencing
claims: whether the scratch directory was created, whether it still exists
when the handler returns, whether `run_yt_dlp` was invoked, and whether the
remote Whisper call was made. -/
structure Trace where
  scratchCreated : Bool
  scratchExistsAtReturn : Bool
  fetcherInvoked : Bool
  transcriberInvoked : Bool
deriving DecidableEq, Repr

/-- Python `str.strip()` with no arguments: remove leading and trailing
whitespace characters (modelled with `Char.isWhitespace`). -/
def pyStrip (s : String) : String :=
  ⟨((s.data.dropWhile Char.isWhitespace).reverse.dropWhile
      Char.isWhitespace).reverse⟩

/-- Whether the second character list begins with the first one; used to
model the shell glob `audio.*` over names inside the scratch directory
(`*` matches any, possibly empty, character sequence). -/
def listBeginsWith : List Char → List Char → Bool
  | [], _ => true
  | _ :: _, [] => false
  | p :: ps, c :: cs => (p == c) && listBeginsWith ps cs

/-- Python truthiness of `os.environ.get(...)`: `None` and the empty string
are falsy (`if not api_key`). -/
def pyTruthy : Option String → Bool
  | none => false
  | some s => !(s == "")

/-- Python `a or b` on strings: the empty string is falsy, so it falls back
to `b`. -/
def pyOrStr (a b : String) : String :=
  if a = "" then b else a

/-- Python slice `s[-n:]`: the last `n` characters of `s` (all of `s` when
shorter than `n`). -/
def lastChars (n : Nat) (s : String) : String :=
  ⟨s.data.drop (s.data.length - n)⟩

/-- Python `(getattr(resp, "text", None) or "")`: the response text field,
defaulting to the empty string when the attribute is absent, `None`, or
empty. -/
def getattrTextOrEmpty (t : Option String) : String :=
  match t with
  | none => ""
  | some s => pyOrStr s ""

/-- The comparison step of `candidates.sort(key=os.path.getsize, reverse=True)`
followed by `candidates[0]`: keep the current best unless the next candidate
is strictly larger (Python sort is stable, so the head of the descending
sort is the first candidate of maximal size). -/
def pickBigger (best c : FileEntry) : FileEntry :=
  if c.size > best.size then c else best

/-- Head of the size-descending stable sort of the candidate list: the first
candidate of maximal size, `none` when the list is empty (`if not
candidates`). -/
def pickLargest : List FileEntry → Option FileEntry
  | [] => none
  | f :: fs => some (fs.foldl pickBigger f)

/-- Candidate output files from `src/main.py` lines 58–59:
`glob.glob(os.path.join(workdir, "audio.*"))` filtered by
`os.path.isfile`. Names are relative to the scratch directory, so the glob
is a check that the name starts with `audio.`. -/
def audioCandidates (files : List FileEntry) : List FileEntry :=
  (files.filter (fun f => listBeginsWith "audio.".data f.name.data)).filter
    (fun f => f.isRegularFile)

/-- The `run_yt_dlp` function of `src/main.py` (lines 21–75), with the
process outcome and resulting directory contents supplied by the world:
timeout → 504; non-zero exit → 502 with the last 1500 characters of stderr
(falling back to stdout); no candidate file → 502; candidate below 1024
bytes → 502; otherwise the largest candidate is returned. -/
def run_yt_dlp (proc : ProcResult) (files : List FileEntry) :
    Except HTTPException FileEntry :=
  match proc with
  | .timeout => .error ⟨504, "yt-dlp timed out"⟩
  | .completed returncode stdout stderr =>
    if returncode ≠ 0 then
      .error ⟨502, "yt-dlp failed:\n" ++
        lastChars 1500 (pyOrStr stderr (pyOrStr stdout ""))⟩
    else
      match pickLargest (audioCandidates files) with
      | none =>
        .error ⟨502, "yt-dlp reported success but no audio file was created"⟩
      | some audio =>
        if audio.size < 1024 then
          .error ⟨502, "yt-dlp produced an empty/too-small file: " ++ audio.name⟩
        else
          .ok audio

/-- The `POST /transcribe` handler of `src/main.py` (lines 78–107), as a
function of the `OPENAI_API_KEY` environment value, the bound request, and
the external world. Mirrors the source order: credential check (500), URL
trim check (400), then inside `with tempfile.TemporaryDirectory()` the
fetch, the remote Whisper call (wrapped failure → 502), and the transcript
length guard (502). The `with` block removes the scratch directory on every
exit, so `scratchExistsAtReturn` is false whenever `scratchCreated` is
true. -/
def transcribe (env : Option String) (req : Req) (w : World) :
    Except HTTPException Resp × Trace :=
  if pyTruthy env = false then
    (.error ⟨500, "OPENAI_API_KEY is not set"⟩, ⟨false, false, false, false⟩)
  else
    if pyStrip req.videoUrl = "" then
      (.error ⟨400, "videoUrl is required"⟩, ⟨false, false, false, false⟩)
    else
      match run_yt_dlp w.proc w.files with
      | .error e => (.error e, ⟨true, false, true, false⟩)
      | .ok _audio =>
        match w.whisper with
        | .raised msg =>
          (.error ⟨502, "OpenAI Whisper failed: " ++ msg⟩,
            ⟨true, false, true, true⟩)
        | .ok t =>
          let text := pyStrip (getattrTextOrEmpty t)
          if text.length < 10 then
            (.error ⟨502, "empty transcript"⟩, ⟨true, false, true, true⟩)
          else
            (.ok ⟨text⟩, ⟨true, false, true, true⟩)

/-- Binding of a JSON request body (an association list of string fields) to
the pydantic model `Req`: the declared field `videoUrl` is required, other
fields are ignored; binding fails (FastAPI returns a validation error and
the handler never runs) when `videoUrl` is absent. -/
def bindReq : List (String × String) → Option Req
  | [] => none
  | (k, v) :: rest => if k = "videoUrl" then some ⟨v⟩ else bindReq rest

/-- Status code of a handler outcome, when it is an HTTPException. -/
def statusOf : Except HTTPException Resp → Option Nat
  | .error e => some e.status
  | .ok _ => none

/-- Sample scratch-directory listing used to exercise artifact resolution:
two regular candidates of sizes 2000 < 5000, a non-regular entry matching
the glob, and a non-matching regular file. -/
def sampleFiles : List FileEntry :=
  [⟨"audio.m4a", true, 2000⟩, ⟨"audio.webm", true, 5000⟩,
   ⟨"audio.txt", false, 9999⟩, ⟨"other.bin", true, 7⟩]

theorem pickBigger_size_left (f g : FileEntry) : f.size ≤ (pickBigger f g).size := by
  unfold pickBigger
  split <;> omega

theorem pickBigger_size_right (f g : FileEntry) : g.size ≤ (pickBigger f g).size := by
  unfold pickBigger
  split <;> omega

theorem pickBigger_eq_or (f g : FileEntry) :
    pickBigger f g = f ∨ pickBigger f g = g := by
  unfold pickBigger
  split
  · exact Or.inr rfl
  · exact Or.inl rfl

theorem foldl_pickBigger_mem (fs : List FileEntry) :
    ∀ f : FileEntry, fs.foldl pickBigger f ∈ f :: fs := by
  induction fs with
  | nil => intro f; simp
  | cons g gs ih =>
    intro f
    have h := ih (pickBigger f g)
    simp only [List.foldl_cons]
    rcases List.mem_cons.mp h with he | hm
    · rcases pickBigger_eq_or f g with h2 | h2
      · rw [he, h2]
        exact List.mem_cons_self _ _
      · rw [he, h2]
        exact List.mem_cons_of_mem _ (List.mem_cons_self _ _)
    · exact List.mem_cons_of_mem _ (List.mem_cons_of_mem _ hm)

theorem foldl_pickBigger_ge (fs : List FileEntry) :
    ∀ f x : FileEntry, x ∈ f :: fs → x.size ≤ (fs.foldl pickBigger f).size := by
  induction fs with
  | nil =>
    intro f x hx
    rcases List.mem_cons.mp hx with rfl | h
    · simp
    · simp at h
  | cons g gs ih =>
    intro f x hx
    simp only [List.foldl_cons]
    have hbest : (pickBigger f g).size ≤ (gs.foldl pickBigger (pickBigger f g)).size :=
      ih (pickBigger f g) (pickBigger f g) (List.mem_cons_self _ _)
    rcases List.mem_cons.mp hx with rfl | hx2
    · exact le_trans (pickBigger_size_left x g) hbest
    · rcases List.mem_cons.mp hx2 with rfl | hx3
      · exact le_trans (pickBigger_size_right f x) hbest
      · exact ih (pickBigger f g) x (List.mem_cons_of_mem _ hx3)

theorem pickLargest_spec (l : List FileEntry) (c : FileEntry)
    (h : pickLargest l = some c) : c ∈ l ∧ ∀ x ∈ l, x.size ≤ c.size := by
  cases l with
  | nil => simp [pickLargest] at h
  | cons f fs =>
    simp only [pickLargest, Option.some.injEq] at h
    subst h
    exact ⟨foldl_pickBigger_mem fs f, fun x hx => foldl_pickBigger_ge fs f x hx⟩

theorem lastChars_length_le (n : Nat) (s : String) :
    (lastChars n s).data.length ≤ n := by
  simp [lastChars, List.length_drop]
  omega

theorem lastChars_isSuffix (n : Nat) (s : String) :
    (lastChars n s).data <:+ s.data :=
  ⟨s.data.take (s.data.length - n), List.take_append_drop _ _⟩

/-- C1: the scratch directory never exists when the transcribe handler
returns — neither on the success path nor on any failure path (the
`with tempfile.TemporaryDirectory()` block removes it on every exit, and
the early 500/400 exits never create it). -/
theorem C1_scratch_dir_removed_on_return (env : Option String) (req : Req)
    (w : World) : ((transcribe env req w).snd).scratchExistsAtReturn = false := by
  unfold transcribe
  repeat' split
  all_goals try rfl
  all_goals (dsimp only; split <;> rfl)

/-- C2 counterexample: the request model declares only `videoUrl`; a body
carrying the URL only under the alias `url` fails binding and can never
produce a success response, while the same URL under `videoUrl` binds —
refuting the claim that both field names are accepted. -/
theorem C2_alias_field_counterexample :
    bindReq [("url", "https://example.com/v2")] = none ∧
    bindReq [("videoUrl", "https://example.com/v2")] =
      some ⟨"https://example.com/v2"⟩ :=
  ⟨rfl, rfl⟩

/-- C2 amended: the transcribe endpoint accepts the source URL only under
the single declared field name `videoUrl`; a body whose URL appears only
under `url` is rejected at binding and never reaches the handler. -/
theorem C2_only_videoUrl_accepted (u : String) :
    bindReq [("videoUrl", u)] = some ⟨u⟩ ∧ bindReq [("url", u)] = none :=
  ⟨rfl, rfl⟩

/-- C3 counterexample: a blank URL does not always yield MissingInput 400 —
when the credential is also absent the handler returns 500
(MissingCredential), because the credential check precedes URL
validation. -/
theorem C3_blank_url_counterexample :
    pyStrip (Req.mk "   ").videoUrl = "" ∧
    statusOf (transcribe none ⟨"   "⟩ ⟨.timeout, [], .ok none⟩).fst = some 500 ∧
    statusOf (transcribe none ⟨"   "⟩ ⟨.timeout, [], .ok none⟩).fst ≠ some 400 :=
  ⟨by decide, rfl, by decide⟩

/-- C3 amended: when the credential is present, every blank or
whitespace-only URL fails with MissingInput (400) and yt-dlp is never
invoked. -/
theorem C3_blank_url_with_credential_400 (env : Option String) (req : Req)
    (w : World) (hk : pyTruthy env = true) (hu : pyStrip req.videoUrl = "") :
    (transcribe env req w).fst = .error ⟨400, "videoUrl is required"⟩ ∧
    ((transcribe env req w).snd).fetcherInvoked = false := by
  constructor <;> simp [transcribe, hk, hu]

theorem C3_blank_url_with_credential_400_witness :
    pyTruthy (some "sk-test") = true ∧ pyStrip (Req.mk "   ").videoUrl = "" ∧
    ((transcribe (some "sk-test") ⟨"   "⟩ ⟨.timeout, [], .ok none⟩).fst =
        .error ⟨400, "videoUrl is required"⟩ ∧
      ((transcribe (some "sk-test") ⟨"   "⟩ ⟨.timeout, [], .ok none⟩).snd).fetcherInvoked
        = false) :=
  ⟨by decide, by decide,
    C3_blank_url_with_credential_400 (some "sk-test") ⟨"   "⟩
      ⟨.timeout, [], .ok none⟩ (by decide) (by decide)⟩

/-- C4: the credential is read per request — when it is absent (or empty,
which Python truthiness treats as unset) the transcribe call fails with
500 MissingCredential, while the health endpoint, which reads no
configuration at all, still returns its static success payload. -/
theorem C4_lazy_credential (env : Option String) (req : Req) (w : World)
    (hk : pyTruthy env = false) :
    (transcribe env req w).fst = .error ⟨500, "OPENAI_API_KEY is not set"⟩ ∧
    health = ⟨true⟩ := by
  refine ⟨?_, rfl⟩
  simp [transcribe, hk]

theorem C4_lazy_credential_witness :
    pyTruthy none = false ∧
    ((transcribe none ⟨"https://example.com/v1"⟩ ⟨.timeout, [], .ok none⟩).fst =
        .error ⟨500, "OPENAI_API_KEY is not set"⟩ ∧
      health = ⟨true⟩) :=
  ⟨rfl, C4_lazy_credential none ⟨"https://example.com/v1"⟩
    ⟨.timeout, [], .ok none⟩ rfl⟩

/-- C5: when the yt-dlp process exceeds its wall-clock timeout the request
fails with 504 DownloadTimeout and the Whisper call is never made. -/
theorem C5_download_timeout_504 (env : Option String) (req : Req) (w : World)
    (hk : pyTruthy env = true) (hu : pyStrip req.videoUrl ≠ "")
    (hp : w.proc = .timeout) :
    (transcribe env req w).fst = .error ⟨504, "yt-dlp timed out"⟩ ∧
    ((transcribe env req w).snd).transcriberInvoked = false := by
  constructor <;> simp [transcribe, run_yt_dlp, hk, hu, hp]

theorem C5_download_timeout_504_witness :
    pyTruthy (some "sk-test") = true ∧
    pyStrip (Req.mk "https://example.com/v1").videoUrl ≠ "" ∧
    (World.mk .timeout [] (.ok none)).proc = .timeout ∧
    ((transcribe (some "sk-test") ⟨"https://example.com/v1"⟩
        ⟨.timeout, [], .ok none⟩).fst = .error ⟨504, "yt-dlp timed out"⟩ ∧
      ((transcribe (some "sk-test") ⟨"https://example.com/v1"⟩
        ⟨.timeout, [], .ok none⟩).snd).transcriberInvoked = false) :=
  ⟨by decide, by decide, rfl,
    C5_download_timeout_504 (some "sk-test") ⟨"https://example.com/v1"⟩
      ⟨.timeout, [], .ok none⟩ (by decide) (by decide) rfl⟩

/-- C6: a non-zero yt-dlp exit makes the request fail with 502 whose detail
carries the last at most 1500 characters of the captured error stream,
falling back to standard output when the error stream is empty. -/
theorem C6_tool_failure_tail (env : Option String) (req : Req) (w : World)
    (returncode : Int) (stdout stderr : String)
    (hk : pyTruthy env = true) (hu : pyStrip req.videoUrl ≠ "")
    (hp : w.proc = .completed returncode stdout stderr) (hrc : returncode ≠ 0) :
    (transcribe env req w).fst =
      .error ⟨502, "yt-dlp failed:\n" ++
        lastChars 1500 (pyOrStr stderr (pyOrStr stdout ""))⟩ ∧
    (lastChars 1500 (pyOrStr stderr (pyOrStr stdout ""))).data.length ≤ 1500 ∧
    (stderr ≠ "" →
      (lastChars 1500 (pyOrStr stderr (pyOrStr stdout ""))).data <:+ stderr.data) ∧
    (stderr = "" →
      (lastChars 1500 (pyOrStr stderr (pyOrStr stdout ""))).data <:+ stdout.data) := by
  refine ⟨?_, lastChars_length_le _ _, ?_, ?_⟩
  · simp [transcribe, run_yt_dlp, hk, hu, hp, hrc]
  · intro h
    rw [show pyOrStr stderr (pyOrStr stdout "") = stderr from by simp [pyOrStr, h]]
    exact lastChars_isSuffix _ _
  · intro h
    subst h
    have h3 : pyOrStr stdout "" = stdout := by
      by_cases h2 : stdout = "" <;> simp [pyOrStr, h2]
    rw [show pyOrStr "" (pyOrStr stdout "") = pyOrStr stdout "" from by simp [pyOrStr],
      h3]
    exact lastChars_isSuffix _ _

theorem C6_tool_failure_tail_witness :
    pyTruthy (some "sk-test") = true ∧ pyStrip (Req.mk "u").videoUrl ≠ "" ∧
    (World.mk (.completed 1 "" "ERROR: video unavailable") [] (.ok none)).proc =
      .completed 1 "" "ERROR: video unavailable" ∧ (1 : Int) ≠ 0 ∧
    ((transcribe (some "sk-test") ⟨"u"⟩
        ⟨.completed 1 "" "ERROR: video unavailable", [], .ok none⟩).fst =
      .error ⟨502, "yt-dlp failed:\n" ++
        lastChars 1500 (pyOrStr "ERROR: video unavailable" (pyOrStr "" ""))⟩ ∧
     (lastChars 1500 (pyOrStr "ERROR: video unavailable" (pyOrStr "" ""))).data.length
        ≤ 1500 ∧
     (("ERROR: video unavailable" : String) ≠ "" →
       (lastChars 1500 (pyOrStr "ERROR: video unavailable" (pyOrStr "" ""))).data <:+
         ("ERROR: video unavailable" : String).data) ∧
     (("ERROR: video unavailable" : String) = "" →
       (lastChars 1500 (pyOrStr "ERROR: video unavailable" (pyOrStr "" ""))).data <:+
         ("" : String).data)) :=
  ⟨by decide, by decide, rfl, by decide,
    C6_tool_failure_tail (some "sk-test") ⟨"u"⟩
      ⟨.completed 1 "" "ERROR: video unavailable", [], .ok none⟩ 1 ""
      "ERROR: video unavailable" (by decide) (by decide) rfl (by decide)⟩

/-- C7: after a zero-exit download, resolution fails with 502 NoOutput when
no regular file matches `audio.*`, and otherwise the selected candidate is
one of the matches and has maximal byte size among them, so with strictly
increasing sizes s1 < ... < sN the file of size sN is chosen. -/
theorem C7_artifact_resolution (files : List FileEntry) (stdout stderr : String) :
    (audioCandidates files = [] →
      run_yt_dlp (.completed 0 stdout stderr) files =
        .error ⟨502, "yt-dlp reported success but no audio file was created"⟩) ∧
    (audioCandidates files ≠ [] →
      ∃ c, pickLargest (audioCandidates files) = some c) ∧
    (∀ c, pickLargest (audioCandidates files) = some c →
      c ∈ audioCandidates files ∧ ∀ x ∈ audioCandidates files, x.size ≤ c.size) := by
  refine ⟨?_, ?_, ?_⟩
  · intro h
    simp [run_yt_dlp, h, pickLargest]
  · intro h
    cases hc : audioCandidates files with
    | nil => exact absurd hc h
    | cons f fs => exact ⟨fs.foldl pickBigger f, rfl⟩
  · intro c hc
    exact pickLargest_spec _ c hc

theorem C7_artifact_resolution_witness :
    (audioCandidates [] = ([] : List FileEntry) ∧
      run_yt_dlp (.completed 0 "" "") [] =
        .error ⟨502, "yt-dlp reported success but no audio file was created"⟩) ∧
    (audioCandidates sampleFiles ≠ [] ∧
      pickLargest (audioCandidates sampleFiles) =
        some ⟨"audio.webm", true, 5000⟩ ∧
      (⟨"audio.webm", true, 5000⟩ : FileEntry) ∈ audioCandidates sampleFiles ∧
      ∀ x ∈ audioCandidates sampleFiles,
        x.size ≤ (FileEntry.mk "audio.webm" true 5000).size) := by
  have h := (C7_artifact_resolution sampleFiles "" "").2.2
    ⟨"audio.webm", true, 5000⟩ (by decide)
  exact ⟨⟨rfl, (C7_artifact_resolution [] "" "").1 rfl⟩,
    by decide, by decide, h.1, fun x hx => h.2 x hx⟩

/-- C8: a resolved artifact below 1024 bytes makes the request fail with
502 DownloadTooSmall, and the Whisper call is never made. -/
theorem C8_too_small_502 (env : Option String) (req : Req) (w : World)
    (stdout stderr : String) (c : FileEntry)
    (hk : pyTruthy env = true) (hu : pyStrip req.videoUrl ≠ "")
    (hp : w.proc = .completed 0 stdout stderr)
    (hc : pickLargest (audioCandidates w.files) = some c)
    (hs : c.size < 1024) :
    (transcribe env req w).fst =
      .error ⟨502, "yt-dlp produced an empty/too-small file: " ++ c.name⟩ ∧
    ((transcribe env req w).snd).transcriberInvoked = false := by
  constructor <;> simp [transcribe, run_yt_dlp, hk, hu, hp, hc, hs]

theorem C8_too_small_502_witness :
    pyTruthy (some "sk-test") = true ∧ pyStrip (Req.mk "u").videoUrl ≠ "" ∧
    (World.mk (.completed 0 "" "") [⟨"audio.m4a", true, 512⟩] (.ok none)).proc =
      .completed 0 "" "" ∧
    pickLargest (audioCandidates
      (World.mk (.completed 0 "" "") [⟨"audio.m4a", true, 512⟩] (.ok none)).files) =
      some ⟨"audio.m4a", true, 512⟩ ∧
    (FileEntry.mk "audio.m4a" true 512).size < 1024 ∧
    ((transcribe (some "sk-test") ⟨"u"⟩
        ⟨.completed 0 "" "", [⟨"audio.m4a", true, 512⟩], .ok none⟩).fst =
      .error ⟨502, "yt-dlp produced an empty/too-small file: " ++
        (FileEntry.mk "audio.m4a" true 512).name⟩ ∧
     ((transcribe (some "sk-test") ⟨"u"⟩
        ⟨.completed 0 "" "", [⟨"audio.m4a", true, 512⟩], .ok none⟩).snd).transcriberInvoked
        = false) :=
  ⟨by decide, by decide, rfl, by decide, by decide,
    C8_too_small_502 (some "sk-test") ⟨"u"⟩
      ⟨.completed 0 "" "", [⟨"audio.m4a", true, 512⟩], .ok none⟩ "" ""
      ⟨"audio.m4a", true, 512⟩ (by decide) (by decide) rfl (by decide) (by decide)⟩

/-- C9: after a successful fetch and a successful Whisper call, the
response is determined by the trimmed text field (empty when the field is
absent): 502 DegenerateTranscript exactly when its length is below 10,
otherwise the success body carries the trimmed text. -/
theorem C9_degenerate_transcript (env : Option String) (req : Req) (w : World)
    (c : FileEntry) (t : Option String)
    (hk : pyTruthy env = true) (hu : pyStrip req.videoUrl ≠ "")
    (hf : run_yt_dlp w.proc w.files = .ok c) (hw : w.whisper = .ok t) :
    (transcribe env req w).fst =
      if (pyStrip (getattrTextOrEmpty t)).length < 10 then
        .error ⟨502, "empty transcript"⟩
      else .ok ⟨pyStrip (getattrTextOrEmpty t)⟩ := by
  simp only [transcribe, hk, hu, hf, hw]
  simp only [Bool.true_eq_false, if_false, if_neg hu]
  split <;> rfl

theorem C9_degenerate_transcript_witness :
    pyTruthy (some "sk-test") = true ∧ pyStrip (Req.mk "u").videoUrl ≠ "" ∧
    run_yt_dlp
        (World.mk (.completed 0 "" "") [⟨"audio.m4a", true, 2048⟩]
          (.ok (some "hello world this is a test"))).proc
        (World.mk (.completed 0 "" "") [⟨"audio.m4a", true, 2048⟩]
          (.ok (some "hello world this is a test"))).files =
      .ok ⟨"audio.m4a", true, 2048⟩ ∧
    (World.mk (.completed 0 "" "") [⟨"audio.m4a", true, 2048⟩]
        (.ok (some "hello world this is a test"))).whisper =
      .ok (some "hello world this is a test") ∧
    (transcribe (some "sk-test") ⟨"u"⟩
        ⟨.completed 0 "" "", [⟨"audio.m4a", true, 2048⟩],
          .ok (some "hello world this is a test")⟩).fst =
      if (pyStrip (getattrTextOrEmpty (some "hello world this is a test"))).length < 10
      then .error ⟨502, "empty transcript"⟩
      else .ok ⟨pyStrip (getattrTextOrEmpty (some "hello world this is a test"))⟩ :=
  ⟨by decide, by decide, rfl, rfl,
    C9_degenerate_transcript (some "sk-test") ⟨"u"⟩
      ⟨.completed 0 "" "", [⟨"audio.m4a", true, 2048⟩],
        .ok (some "hello world this is a test")⟩
      ⟨"audio.m4a", true, 2048⟩ (some "hello world this is a test")
      (by decide) (by decide) rfl rfl⟩

/-- C10: with the credential absent the handler returns 500 immediately:
no URL validation outcome is observable (even a blank URL yields 500, not
400), no scratch directory is created, and neither yt-dlp nor the Whisper
call is invoked. -/
theorem C10_missing_credential_first (req : Req) (w : World) :
    transcribe none req w =
      (.error ⟨500, "OPENAI_API_KEY is not set"⟩, ⟨false, false, false, false⟩) :=
  rfl

end YW
